import Mathlib

/-!
Verification of the LearnWithAI submission-judging pipeline.

Shallow embedding of:
  * `backend/ticker_raiser/app/utils/submission_verdict.py`
    (`compare_with_strategy`, `evaluate_submission`, `batch_evaluate_submission`)
  * `backend/ticker_raiser/judge_worker.py`
    (`run_docker_judge`, `judge_submission`, timeout constants)
  * `backend/ticker_raiser/app/crud/submission.py`
    (`update_submission_status`)

Strings are modelled as `List Char`; Python's `str.strip` / `str.rstrip` /
`str.split` are modelled over the six ASCII whitespace characters Python
treats as whitespace.  The external process run inside Docker is modelled
by an observation type (`ProcOutcome`): the pure classification logic of
the source is applied to that observation.
-/

/-- Python strings in the judge are modelled as lists of characters. -/
abbrev Str := List Char

/-- The six ASCII characters Python's `str.strip()` / `str.split()`
treat as whitespace: space, tab, newline, carriage return, vertical tab,
form feed. -/
def pyIsSpace (c : Char) : Bool :=
  c = ' ' || c = '\t' || c = '\n' || c = '\r' || c = Char.ofNat 11 || c = Char.ofNat 12

/-- Python `s.lstrip()`: drop leading whitespace. -/
def lstrip (s : Str) : Str := s.dropWhile pyIsSpace

/-- Python `s.rstrip()`: drop trailing whitespace only. -/
def rstrip (s : Str) : Str := (s.reverse.dropWhile pyIsSpace).reverse

/-- Python `s.strip()`: drop leading and trailing whitespace. -/
def strip (s : Str) : Str := lstrip (rstrip s)

/-- Python `s.lower()` (ASCII fragment, which is all the judge compares). -/
def toLowerStr (s : Str) : Str := s.map Char.toLower

/-- Helper for `tokens`: accumulates the current word reversed. -/
def tokensAux : Str → Str → List Str
  | [], acc => if acc.isEmpty then [] else [acc.reverse]
  | c :: cs, acc =>
    if pyIsSpace c then
      if acc.isEmpty then tokensAux cs [] else acc.reverse :: tokensAux cs []
    else tokensAux cs (c :: acc)

/-- Python `s.split()` with no argument: whitespace-delimited tokens,
empty tokens dropped. -/
def tokens (s : Str) : List Str := tokensAux s []

/-- Python `s.split('\n')`: split at every newline, keeping empty segments. -/
def splitNL : Str → List Str
  | [] => [[]]
  | c :: cs =>
    if c = '\n' then [] :: splitNL cs
    else
      match splitNL cs with
      | [] => [[c]]
      | l :: ls => (c :: l) :: ls

/-- `needle in hay` (Python substring containment). -/
def containsSub (needle hay : Str) : Bool :=
  hay.tails.any fun t => needle.isPrefixOf t

/-- `ComparisonStrategy` enum of `submission_verdict.py`. -/
inductive ComparisonStrategy where
  | EXACT
  | TRIM_TRAILING
  | NORMALIZED
  | TOKEN
deriving DecidableEq, Repr

/-- `VerdictType` enum of `submission_verdict.py`. -/
inductive VerdictType where
  | ACCEPTED
  | WRONG_ANSWER
  | RUNTIME_ERROR
  | TIME_LIMIT_EXCEEDED
  | COMPILATION_ERROR
  | MEMORY_LIMIT_EXCEEDED
  | PENDING
deriving DecidableEq, Repr

/-- `compare_with_strategy` (submission_verdict.py lines 31-66). -/
def compare_with_strategy (actual_output expected_output : Str)
    (strategy : ComparisonStrategy) : Bool :=
  match strategy with
  | .EXACT => actual_output == expected_output
  | .TRIM_TRAILING => rstrip actual_output == rstrip expected_output
  | .NORMALIZED =>
      ((splitNL (strip actual_output)).map tokens)
        == ((splitNL (strip expected_output)).map tokens)
  | .TOKEN => tokens actual_output == tokens expected_output

/-- `evaluate_submission` (submission_verdict.py lines 69-107): priority
runtime error, then timeout, then output comparison.  Returns the verdict
together with the message string built by the source. -/
def evaluate_submission (actual_output expected_output : Str)
    (strategy : ComparisonStrategy)
    (timeout_occurred runtime_error : Bool)
    (error_message : Option Str) : VerdictType × Str :=
  if runtime_error then
    (.RUNTIME_ERROR,
      match error_message with
      | some m => if m.isEmpty then ("Runtime error occurred".data) else m
      | none => ("Runtime error occurred".data))
  else if timeout_occurred then
    (.TIME_LIMIT_EXCEEDED, "Time limit exceeded".data)
  else if compare_with_strategy actual_output expected_output strategy then
    (.ACCEPTED, "Output matches expected".data)
  else
    (.WRONG_ANSWER,
      ("Expected:\n".data) ++ expected_output ++ ("\n\nGot:\n".data) ++ actual_output)

/-- `MAX_DOCKER_TIMEOUT` (judge_worker.py line 22). -/
def MAX_DOCKER_TIMEOUT : Nat := 30

/-- `int(time_limit_ms / 1000)` of `run_docker_judge`: the time limit in
whole (truncated) seconds. -/
def time_limit_sec_floor (time_limit_ms : Nat) : Nat := time_limit_ms / 1000

/-- `docker_timeout = min(int(time_limit_sec) + 5, MAX_DOCKER_TIMEOUT)`
(judge_worker.py line 91): the outer wall-clock watchdog ceiling passed to
`proc.communicate`. -/
def docker_timeout (time_limit_ms : Nat) : Nat :=
  min (time_limit_sec_floor time_limit_ms + 5) MAX_DOCKER_TIMEOUT

/-- `str(int(time_limit_sec) + 1)` (judge_worker.py line 122): the argument
of the `timeout` wrapper placed in front of `python /solution.py` inside the
container. -/
def inner_timeout_sec (time_limit_ms : Nat) : Nat :=
  time_limit_sec_floor time_limit_ms + 1

/-- Observation of the sandboxed process from the caller's side:
either `proc.communicate` raised `subprocess.TimeoutExpired` (the outer
watchdog fired), or the process finished with an exit code, stdout and
stderr, or some other exception was raised while provisioning/running
the container. -/
inductive ProcOutcome where
  | timedOut
  | finished (returncode : Int) (stdout stderr : Str)
  | raised (message : Str)
deriving DecidableEq, Repr

/-- The result dictionary returned by `run_docker_judge`. -/
structure RunResult where
  passed : Bool
  actual_output : Str
  error : Option Str
  error_type : Option Str
  timed_out : Bool
deriving DecidableEq, Repr

/-- The `f"Time limit exceeded ({time_limit_ms}ms)"` message. -/
def tle_message (time_limit_ms : Nat) : Str :=
  ("Time limit exceeded (".data) ++ (Nat.repr time_limit_ms).data ++ ("ms)".data)

/-- The timeout result dictionary (judge_worker.py lines 158-164 and 185-191). -/
def timeout_result (time_limit_ms : Nat) : RunResult :=
  { passed := false
    actual_output := []
    error := some (tle_message time_limit_ms)
    error_type := some ("TIMEOUT".data)
    timed_out := true }

/-- The error-signature chain of judge_worker.py lines 169-183:
the `error_type` string chosen by inspecting stderr, before the final
`"timed out"` check. -/
def stderr_error_type (stderr : Str) : Str :=
  if containsSub ("SyntaxError".data) stderr then "SYNTAX_ERROR".data
  else if containsSub ("NameError".data) stderr then "NAME_ERROR".data
  else if containsSub ("TypeError".data) stderr then "TYPE_ERROR".data
  else if containsSub ("ValueError".data) stderr then "VALUE_ERROR".data
  else if containsSub ("IndexError".data) stderr then "INDEX_ERROR".data
  else if containsSub ("ZeroDivisionError".data) stderr then "ZERO_DIVISION".data
  else if containsSub ("MemoryError".data) stderr then "MEMORY_LIMIT".data
  else "RUNTIME".data

/-- True when one of the seven recognised fault signatures occurs in stderr,
i.e. when one of the `elif` arms before the `"timed out"` check fires. -/
def has_fault_signature (stderr : Str) : Bool :=
  containsSub ("SyntaxError".data) stderr
    || containsSub ("NameError".data) stderr
    || containsSub ("TypeError".data) stderr
    || containsSub ("ValueError".data) stderr
    || containsSub ("IndexError".data) stderr
    || containsSub ("ZeroDivisionError".data) stderr
    || containsSub ("MemoryError".data) stderr

/-- `run_docker_judge` (judge_worker.py lines 71-245), as a function of the
process observation.  The container set-up itself is external; everything
the function does with the observation (timeout classification, stderr
signature matching, output comparison with `strip()`) is modelled here. -/
def run_docker_judge (expected_output : Str) (time_limit_ms : Nat)
    (obs : ProcOutcome) : RunResult :=
  match obs with
  | .timedOut => timeout_result time_limit_ms
  | .raised msg =>
      { passed := false
        actual_output := []
        error := some (("System error: ".data) ++ msg.take 200)
        error_type := some ("SYSTEM_ERROR".data)
        timed_out := false }
  | .finished returncode stdout stderr =>
      if returncode ≠ 0 then
        if ¬ has_fault_signature stderr
            && containsSub ("timed out".data) (toLowerStr stderr) then
          timeout_result time_limit_ms
        else
          { passed := false
            actual_output := []
            error := some ((strip stderr).take 500)
            error_type := some (stderr_error_type stderr)
            timed_out := false }
      else
        let actual := strip stdout
        let expected := strip expected_output
        let passed := actual == expected
        { passed := passed
          actual_output := actual
          error := none
          error_type := if passed then none else some ("WRONG_ANSWER".data)
          timed_out := false }

/-- Submission lifecycle statuses used by the judge pipeline
(`models.Submission.status` string values). -/
inductive Status where
  | PENDING
  | ACCEPTED
  | WRONG_ANSWER
  | RUNTIME_ERROR
  | TIME_LIMIT_EXCEEDED
deriving DecidableEq, Repr

/-- The `Submission` row fields the judge reads and writes. -/
structure Submission where
  problem_id : Nat
  code : Str
  status : Status
  test_cases_passed : Nat
  total_test_cases : Nat
deriving DecidableEq, Repr

/-- The `Problem` fields the judge reads. -/
structure Problem where
  time_limit_ms : Nat
deriving DecidableEq, Repr

/-- The `TestCase` fields the judge reads. -/
structure TestCase where
  input_data : Str
  expected_output : Str
deriving DecidableEq, Repr

/-- `update_submission_status` (app/crud/submission.py lines 55-70): look the
row up; if absent return `None`; otherwise overwrite `status` and
`test_cases_passed` unconditionally and return the updated row.  The lookup
result stands for the database row with the requested id. -/
def update_submission_status (row : Option Submission) (status : Status)
    (test_cases_passed : Nat) : Option Submission :=
  match row with
  | none => none
  | some s => some { s with status := status, test_cases_passed := test_cases_passed }

/-- Python truthiness of the `result["error"]` field: `None` and the empty
string are falsy, any non-empty string truthy (judge_worker.py line 296). -/
def errTruthy : Option Str → Bool
  | none => false
  | some s => !s.isEmpty

/-- The per-test-case loop of `judge_submission` (judge_worker.py lines
276-303), fed with the `run_docker_judge` result of each test case in
stored order.  Arguments: remaining results, current `final_status`,
current `passed_count`.  Returns `(final_status, passed_count, executed)`
where `executed` counts how many test cases were run through the sandbox
before the loop ended (the loop `break`s on a timeout or on a truthy
error, but not on a wrong answer). -/
def judge_loop : List RunResult → Status → Nat → Status × Nat × Nat
  | [], st, p => (st, p, 0)
  | r :: rs, st, p =>
    if r.passed then
      let k := judge_loop rs st (p + 1)
      (k.1, k.2.1, k.2.2 + 1)
    else if r.timed_out then (.TIME_LIMIT_EXCEEDED, p, 1)
    else if errTruthy r.error then (.RUNTIME_ERROR, p, 1)
    else
      let st' := if st = Status.ACCEPTED then Status.WRONG_ANSWER else st
      let k := judge_loop rs st' p
      (k.1, k.2.1, k.2.2 + 1)

/-- The data `judge_submission` fetches from the database: the submission
row for the given id, the problem row for its `problem_id`, and the
problem's ordered test cases. -/
structure JudgeEnv where
  submission_row : Option Submission
  problem_row : Option Problem
  test_cases : List TestCase
deriving DecidableEq, Repr

/-- Result of one `judge_submission` call: the submission row after the
call (persistence goes through `update_submission_status`), the boolean
return value, and how many test cases were executed. -/
structure JudgeOutcome where
  db : Option Submission
  returned : Bool
  executed : Nat
deriving DecidableEq, Repr

/-- `judge_submission` (judge_worker.py lines 248-331).  `obs` gives the
process observation for each test case in stored order; `raised` models an
exception escaping the `try` body (caught at line 315, which persists
`("RUNTIME_ERROR", 0)` and returns `False`).  The early validation paths
(submission / problem / test cases missing) return `False` without any
status update. -/
def judge_submission (env : JudgeEnv) (obs : List ProcOutcome)
    (raised : Bool) : JudgeOutcome :=
  if raised then
    { db := update_submission_status env.submission_row .RUNTIME_ERROR 0
      returned := false
      executed := 0 }
  else
    match env.submission_row with
    | none => { db := none, returned := false, executed := 0 }
    | some s =>
      match env.problem_row with
      | none => { db := some s, returned := false, executed := 0 }
      | some prob =>
        if env.test_cases.isEmpty then
          { db := some s, returned := false, executed := 0 }
        else
          let results := (env.test_cases.zip obs).map fun c =>
            run_docker_judge c.1.expected_output prob.time_limit_ms c.2
          let out := judge_loop results .ACCEPTED 0
          { db := update_submission_status (some s) out.1 out.2.1
            returned := true
            executed := out.2.2 }

/-- `round(passed / total * 100, 2)` of `batch_evaluate_submission`
(line 177), computed exactly and expressed in hundredths of a percent:
round-half-even (Python's `round` tie-breaking) of
`passed * 10000 / total`.  The source stores the result as a float; its
exact value is this integer divided by 100. -/
def pct_hundredths (passed total : Nat) : Nat :=
  let a := passed * 10000
  let q := a / total
  let r := a % total
  if 2 * r < total then q
  else if total < 2 * r then q + 1
  else if q % 2 = 0 then q else q + 1

/-- Python's `zip` over four lists: truncates to the shortest. -/
def zip4 {α β γ δ : Type} : List α → List β → List γ → List δ → List (α × β × γ × δ)
  | a :: as_, b :: bs, c :: cs, d :: ds => (a, b, c, d) :: zip4 as_ bs cs ds
  | _, _, _, _ => []

/-- Python `xs or [False] * n` for the optional flag lists of
`batch_evaluate_submission` (lines 136-137): `None` and the empty list are
both falsy and replaced by `n` copies of `False`. -/
def pyOrFalses (xs : Option (List Bool)) (n : Nat) : List Bool :=
  match xs with
  | none => List.replicate n false
  | some l => if l.isEmpty then List.replicate n false else l

/-- One entry of the `details` list built by `batch_evaluate_submission`. -/
structure Detail where
  test_case : Nat
  verdict : VerdictType
  message : Str
deriving DecidableEq, Repr

/-- The dictionary returned by `batch_evaluate_submission`. -/
structure BatchResult where
  passed : Nat
  total : Nat
  verdict : VerdictType
  percentage_hundredths : Nat
  details : List Detail
deriving DecidableEq, Repr

/-- The verdict `batch_evaluate_submission` computes for one zipped case
(actual, expected, timeout flag, runtime-error flag); `error_message` is
not passed by the batch loop, so it is `None`. -/
def batch_case_verdict (strategy : ComparisonStrategy)
    (c : Str × Str × Bool × Bool) : VerdictType :=
  (evaluate_submission c.1 c.2.1 strategy c.2.2.1 c.2.2.2 none).1

/-- The `for` loop of `batch_evaluate_submission` (lines 143-163) over the
zipped cases, starting at 0-based index `i`: returns
`(details, passed, first_failure)`. -/
def batch_core (strategy : ComparisonStrategy) :
    Nat → List (Str × Str × Bool × Bool) → List Detail × Nat × Option VerdictType
  | _, [] => ([], 0, none)
  | i, c :: rest =>
    let vm := evaluate_submission c.1 c.2.1 strategy c.2.2.1 c.2.2.2 none
    let k := batch_core strategy (i + 1) rest
    (⟨i + 1, vm.1, vm.2⟩ :: k.1,
     (if vm.1 = VerdictType.ACCEPTED then k.2.1 + 1 else k.2.1),
     (if vm.1 = VerdictType.ACCEPTED then k.2.2 else some vm.1))

/-- `batch_evaluate_submission` (submission_verdict.py lines 110-179).
Computing the `percentage` field divides by `len(actual_outputs)`; with
empty input that raises `ZeroDivisionError`, modelled as `none`. -/
def batch_evaluate_submission (actual_outputs expected_outputs : List Str)
    (strategy : ComparisonStrategy)
    (timeouts runtime_errors : Option (List Bool)) : Option BatchResult :=
  let n := actual_outputs.length
  let ts := pyOrFalses timeouts n
  let rs := pyOrFalses runtime_errors n
  let cases := zip4 actual_outputs expected_outputs ts rs
  let k := batch_core strategy 0 cases
  let overall : VerdictType :=
    match k.2.2 with
    | some v => v
    | none => if k.2.1 = n then .ACCEPTED else .WRONG_ANSWER
  if n = 0 then none
  else
    some { passed := k.2.1
           total := n
           verdict := overall
           percentage_hundredths := pct_hundredths k.2.1 n
           details := k.1 }

lemma strip_eq_of_rstrip_eq {a b : Str} (h : rstrip a = rstrip b) :
    strip a = strip b := by
  unfold strip
  rw [h]

lemma judge_loop_all_passed (rs : List RunResult) (st : Status) (p : Nat)
    (h : ∀ r ∈ rs, r.passed = true) :
    judge_loop rs st p = (st, p + rs.length, rs.length) := by
  induction rs generalizing p with
  | nil => simp [judge_loop]
  | cons r rs ih =>
    have hr : r.passed = true := h r (List.mem_cons_self r rs)
    have hrs : ∀ x ∈ rs, x.passed = true := fun x hx => h x (List.mem_cons_of_mem r hx)
    simp [judge_loop, hr, ih (p + 1) hrs]
    omega

lemma judge_loop_stop (pre post : List RunResult) (r : RunResult)
    (st : Status) (p : Nat)
    (hpre : ∀ x ∈ pre, x.passed = true)
    (hr : r.passed = false)
    (hstop : r.timed_out = true ∨ errTruthy r.error = true) :
    judge_loop (pre ++ r :: post) st p
      = ((if r.timed_out then Status.TIME_LIMIT_EXCEEDED else Status.RUNTIME_ERROR),
         p + pre.length, pre.length + 1) := by
  induction pre generalizing p with
  | nil =>
    rcases hstop with ht | he
    · simp [judge_loop, hr, ht]
    · cases hto : r.timed_out with
      | true => simp [judge_loop, hr, hto]
      | false => simp [judge_loop, hr, hto, he]
  | cons x xs ih =>
    have hx : x.passed = true := hpre x (List.mem_cons_self x xs)
    have hxs : ∀ y ∈ xs, y.passed = true := fun y hy => hpre y (List.mem_cons_of_mem x hy)
    simp [judge_loop, hx, ih (p + 1) hxs]
    omega

lemma judge_loop_status_ne_pending (rs : List RunResult) (st : Status) (p : Nat)
    (h : st ≠ .PENDING) : (judge_loop rs st p).1 ≠ .PENDING := by
  induction rs generalizing st p with
  | nil => simpa [judge_loop] using h
  | cons r rs ih =>
    by_cases hp : r.passed = true
    · simpa [judge_loop, hp] using ih st (p + 1) h
    · by_cases ht : r.timed_out = true
      · simp [judge_loop, hp, ht]
      · by_cases he : errTruthy r.error = true
        · simp [judge_loop, hp, ht, he]
        · have h' : (if st = Status.ACCEPTED then Status.WRONG_ANSWER else st) ≠ .PENDING := by
            by_cases hst : st = Status.ACCEPTED <;> simp [hst, h]
          simpa [judge_loop, hp, ht, he] using ih _ p h'

/-- C7: the four comparison strategies decide the spec's round-trip pairs as
stated: trim-trailing accepts "42\n" vs "42", exact rejects that pair, token
accepts "1 2 3" vs "1  2   3", normalized accepts "a b\nc" vs "a  b \n c". -/
theorem comparison_strategy_round_trip :
    compare_with_strategy ("42\n".data) ("42".data) .TRIM_TRAILING = true
    ∧ compare_with_strategy ("42\n".data) ("42".data) .EXACT = false
    ∧ compare_with_strategy ("1 2 3".data) ("1  2   3".data) .TOKEN = true
    ∧ compare_with_strategy ("a b\nc".data) ("a  b \n c".data) .NORMALIZED = true := by
  decide

/-- C5 counterexample: at `time_limit_ms = 29000` (a positive time limit) the
inner `timeout` wrapper's ceiling is 30 s, which is not strictly below the
outer watchdog's ceiling of 30 s. -/
theorem inner_not_below_outer_at_29000 :
    0 < 29000
    ∧ inner_timeout_sec 29000 = 30
    ∧ docker_timeout 29000 = 30
    ∧ ¬ inner_timeout_sec 29000 < docker_timeout 29000 := by
  decide

/-- C5 (amended): the outer watchdog ceiling is always capped at 30 seconds,
and for every `0 < time_limit_ms < 29000` the inner `timeout` wrapper's
ceiling is strictly below the outer watchdog's ceiling; at 29000 ms and above
the two ceilings collide at 30 s. -/
theorem watchdog_bounds (time_limit_ms : Nat) :
    docker_timeout time_limit_ms ≤ 30
    ∧ (0 < time_limit_ms → time_limit_ms < 29000 →
        inner_timeout_sec time_limit_ms < docker_timeout time_limit_ms) := by
  constructor
  · simp [docker_timeout, MAX_DOCKER_TIMEOUT]
  · intro _ h
    simp only [inner_timeout_sec, docker_timeout, time_limit_sec_floor, MAX_DOCKER_TIMEOUT]
    omega

/-- C5 witness: at a 1000 ms limit the bound theorem applies and gives
`2 = inner < outer = 6 ≤ 30`. -/
theorem watchdog_bounds_witness :
    docker_timeout 1000 ≤ 30 ∧ inner_timeout_sec 1000 < docker_timeout 1000 :=
  ⟨(watchdog_bounds 1000).1, (watchdog_bounds 1000).2 (by decide) (by decide)⟩


/-- A pending submission row over two test cases, used as the concrete
input of the C1 counterexample. -/
def subC1 : Submission :=
  { problem_id := 1, code := "print(0)".data, status := .PENDING,
    test_cases_passed := 0, total_test_cases := 2 }

/-- Environment of the C1 counterexample: two test cases expecting "1" and
"2". -/
def envC1 : JudgeEnv :=
  { submission_row := some subC1
    problem_row := some { time_limit_ms := 1000 }
    test_cases := [ { input_data := [], expected_output := "1".data },
                    { input_data := [], expected_output := "2".data } ] }

/-- Process observations of the C1 counterexample: case 1 prints "0"
(wrong answer against "1"), case 2 prints "2" (correct). -/
def obsC1 : List ProcOutcome :=
  [.finished 0 ("0".data) [], .finished 0 ("2".data) []]

/-- C1 counterexample: case 1 is the first non-passing case (a wrong
answer), yet the orchestrator runs both cases and persists
`test_cases_passed = 1`, not `k - 1 = 0`. -/
theorem wrong_answer_does_not_short_circuit :
    (run_docker_judge ("1".data) 1000 (.finished 0 ("0".data) [])).passed = false
    ∧ (judge_submission envC1 obsC1 false).executed = 2
    ∧ (judge_submission envC1 obsC1 false).db
        = some { subC1 with status := .WRONG_ANSWER, test_cases_passed := 1 }
    ∧ ¬ (judge_submission envC1 obsC1 false).executed = 1 := by
  decide

/-- C1 (amended): the short-circuit holds when the first non-passing test
case `k` times out or carries a non-empty error: then exactly `k` cases are
executed through the sandbox, `test_cases_passed = k - 1`, and the final
status is that case's outcome (`TIME_LIMIT_EXCEEDED` on timeout, otherwise
`RUNTIME_ERROR`).  A first non-passing case that is a plain wrong answer
(no timeout, empty/absent error) does not stop the loop. -/
theorem judge_short_circuits_on_timeout_or_error
    (pre post : List RunResult) (r : RunResult)
    (hpre : ∀ x ∈ pre, x.passed = true)
    (hr : r.passed = false)
    (hstop : r.timed_out = true ∨ errTruthy r.error = true) :
    judge_loop (pre ++ r :: post) .ACCEPTED 0
      = ((if r.timed_out then Status.TIME_LIMIT_EXCEEDED else Status.RUNTIME_ERROR),
         pre.length, pre.length + 1) := by
  simpa using judge_loop_stop pre post r .ACCEPTED 0 hpre hr hstop

/-- C1 witness: one passing case, then a timeout, then one further case:
the loop stops after the timeout with one case passed and two executed. -/
theorem judge_short_circuits_witness :
    judge_loop
      [ { passed := true, actual_output := "1".data, error := none,
          error_type := none, timed_out := false },
        timeout_result 1000,
        { passed := true, actual_output := "2".data, error := none,
          error_type := none, timed_out := false } ] .ACCEPTED 0
      = (.TIME_LIMIT_EXCEEDED, 1, 2) := by
  have h := judge_short_circuits_on_timeout_or_error
    [ { passed := true, actual_output := "1".data, error := none,
        error_type := none, timed_out := false } ]
    [ { passed := true, actual_output := "2".data, error := none,
        error_type := none, timed_out := false } ]
    (timeout_result 1000)
    (by decide) (by decide) (Or.inl (by decide))
  simpa using h

/-- A pending submission row whose problem has no test cases, the concrete
input of the C2 counterexample. -/
def subC2 : Submission :=
  { problem_id := 1, code := "x".data, status := .PENDING,
    test_cases_passed := 0, total_test_cases := 0 }

/-- Environment of the C2 counterexample: submission and problem exist, the
test-case list is empty. -/
def envC2 : JudgeEnv :=
  { submission_row := some subC2
    problem_row := some { time_limit_ms := 1000 }
    test_cases := [] }

/-- C2 counterexample: on a claimed submission whose problem has no test
cases, `judge_submission` returns `False` without persisting anything
(no exception is raised), so the submission remains `PENDING` after the
invocation returns. -/
theorem validation_failure_leaves_pending :
    judge_submission envC2 [] false
      = { db := some subC2, returned := false, executed := 0 }
    ∧ subC2.status = .PENDING := by
  decide

/-- C2 (amended): an exception escaping the orchestration persists the pair
`(RUNTIME_ERROR, 0)` on the claimed submission, and any invocation that
passes validation (submission found, problem found, at least one test case)
persists a terminal, non-`PENDING` status; but the early validation-failure
paths (missing submission, missing problem, empty test-case list) return
without persisting, leaving the submission `PENDING`. -/
theorem judge_persists_terminal_status
    (env : JudgeEnv) (obs : List ProcOutcome) (s : Submission)
    (hs : env.submission_row = some s) :
    (judge_submission env obs true).db
        = some { s with status := .RUNTIME_ERROR, test_cases_passed := 0 }
    ∧ (env.problem_row.isSome = true → env.test_cases ≠ [] →
        ((judge_submission env obs false).db.isSome = true
          ∧ ∀ s', (judge_submission env obs false).db = some s' →
              s'.status ≠ .PENDING)) := by
  constructor
  · simp [judge_submission, update_submission_status, hs]
  · intro hp hts
    rcases Option.isSome_iff_exists.mp hp with ⟨prob, hprob⟩
    have hempty : env.test_cases.isEmpty = false := by
      simpa [List.isEmpty_iff] using hts
    simp only [judge_submission, hs, hprob, hempty, update_submission_status,
      Bool.false_eq_true, if_false]
    refine ⟨rfl, ?_⟩
    intro s' h
    have hs' := Option.some_inj.mp h
    subst hs'
    simpa using judge_loop_status_ne_pending _ .ACCEPTED 0 (by simp)

/-- C2 witness: in a concrete one-test-case environment the exception path
persists `(RUNTIME_ERROR, 0)` and the normal path persists a non-`PENDING`
status. -/
theorem judge_persists_terminal_status_witness :
    (judge_submission
        ⟨some ⟨1, "x".data, .PENDING, 0, 1⟩, some ⟨1000⟩,
         [⟨[], "1".data⟩]⟩
        [.finished 0 ("1".data) []] true).db
      = some ⟨1, "x".data, .RUNTIME_ERROR, 0, 1⟩
    ∧ ((judge_submission
        ⟨some ⟨1, "x".data, .PENDING, 0, 1⟩, some ⟨1000⟩,
         [⟨[], "1".data⟩]⟩
        [.finished 0 ("1".data) []] false).db.isSome = true
      ∧ ∀ s', (judge_submission
        ⟨some ⟨1, "x".data, .PENDING, 0, 1⟩, some ⟨1000⟩,
         [⟨[], "1".data⟩]⟩
        [.finished 0 ("1".data) []] false).db = some s' →
          s'.status ≠ .PENDING) := by
  have h := judge_persists_terminal_status
    ⟨some ⟨1, "x".data, .PENDING, 0, 1⟩, some ⟨1000⟩, [⟨[], "1".data⟩]⟩
    [.finished 0 ("1".data) []]
    ⟨1, "x".data, .PENDING, 0, 1⟩ rfl
  exact ⟨h.1, h.2 (by decide) (by decide)⟩

lemma run_docker_judge_finished_zero (e : Str) (tl : Nat) (out err : Str) :
    run_docker_judge e tl (.finished 0 out err)
      = { passed := (strip out == strip e)
          actual_output := strip out
          error := none
          error_type := if (strip out == strip e) then none else some ("WRONG_ANSWER".data)
          timed_out := false } := by
  simp [run_docker_judge]

/-- C3 counterexample: a process killed by the inner `timeout` wrapper exits
with the non-zero code 124 and (when the interpreter dies silently) an empty
stderr; `run_docker_judge` classifies this as a runtime failure
(`error_type = "RUNTIME"`, `timed_out = False`), not as a timeout. -/
theorem inner_timeout_misclassified :
    (124 : Int) ≠ 0
    ∧ (run_docker_judge ("x".data) 1000 (.finished 124 [] [])).timed_out = false
    ∧ (run_docker_judge ("x".data) 1000 (.finished 124 [] [])).error_type
        = some ("RUNTIME".data)
    ∧ run_docker_judge ("x".data) 1000 (.finished 124 [] []) ≠ timeout_result 1000 := by
  decide

/-- C3 (amended): a run terminated by the outer caller-level watchdog is
always classified as a timeout; a run terminated inside the sandbox is
classified as a timeout only when its stderr contains the substring
"timed out" (case-insensitively) and matches none of the seven fault
signatures — otherwise it is classified as a runtime failure. -/
theorem timeout_classification
    (e : Str) (tl : Nat) (rc : Int) (out err : Str)
    (hrc : rc ≠ 0)
    (hsig : has_fault_signature err = false)
    (hts : containsSub ("timed out".data) (toLowerStr err) = true) :
    run_docker_judge e tl .timedOut = timeout_result tl
    ∧ run_docker_judge e tl (.finished rc out err) = timeout_result tl := by
  refine ⟨rfl, ?_⟩
  simp [run_docker_judge, hrc, hsig, hts]

/-- C3 witness: exit code 124 with stderr "timed out" is classified as a
timeout by the theorem, as is the outer watchdog path. -/
theorem timeout_classification_witness :
    run_docker_judge ("x".data) 2000 .timedOut = timeout_result 2000
    ∧ run_docker_judge ("x".data) 2000 (.finished 124 ("ok".data) ("timed out".data))
        = timeout_result 2000 :=
  timeout_classification ("x".data) 2000 124 ("ok".data) ("timed out".data)
    (by decide) (by decide) (by decide)

/-- C4 counterexample: the judge's normal execution path accepts actual
output " x" against expected "x" (it strips leading whitespace too), while
the trim-trailing strategy rejects that pair — so the two comparisons are
not equal. -/
theorem judge_comparison_not_trim_trailing :
    (run_docker_judge ("x".data) 1000 (.finished 0 (" x".data) [])).passed = true
    ∧ compare_with_strategy (" x".data) ("x".data) .TRIM_TRAILING = false := by
  decide

/-- C4 (amended): the acceptance test on the judge's normal execution path
is equality after stripping leading and trailing whitespace from both
strings (`strip`), a strictly more permissive test than the trim-trailing
strategy: trim-trailing equality implies the judge's acceptance, but not
conversely. -/
theorem judge_comparison_is_full_strip
    (e : Str) (tl : Nat) (out err : Str) (a b : Str)
    (h : compare_with_strategy a b .TRIM_TRAILING = true) :
    (run_docker_judge e tl (.finished 0 out err)).passed = (strip out == strip e)
    ∧ (strip a == strip b) = true := by
  constructor
  · rw [run_docker_judge_finished_zero]
  · have hr : rstrip a = rstrip b := by
      simpa [compare_with_strategy] using h
    simp [strip_eq_of_rstrip_eq hr]

/-- C4 witness: at the pair ("42\n", "42"), which trim-trailing accepts,
the theorem applies: the judge's path computes the strip comparison and the
strip comparison holds. -/
theorem judge_comparison_is_full_strip_witness :
    (run_docker_judge ("42".data) 1000 (.finished 0 ("42\n".data) [])).passed
        = (strip ("42\n".data) == strip ("42".data))
    ∧ (strip ("42\n".data) == strip ("42".data)) = true :=
  judge_comparison_is_full_strip ("42".data) 1000 ("42\n".data) []
    ("42\n".data) ("42".data) (by decide)

/-- C6: if the submission is found with its problem and a non-empty ordered
test-case list, every test case finishes with exit code 0 and its actual
output equals the expected output under the trim-trailing strategy (so
no case times out or raises a runtime error), then the persisted result is
`(ACCEPTED, total_test_cases)`: every case passes and is executed. -/
theorem judge_accepts_when_all_match (s : Submission) (prob : Problem)
    (ts : List TestCase) (obs : List ProcOutcome)
    (hne : ts ≠ [])
    (hlen : obs.length = ts.length)
    (hall : ∀ c ∈ ts.zip obs, ∃ out err, c.2 = ProcOutcome.finished 0 out err
              ∧ rstrip out = rstrip c.1.expected_output) :
    judge_submission ⟨some s, some prob, ts⟩ obs false
      = { db := some { s with status := .ACCEPTED, test_cases_passed := ts.length }
          returned := true
          executed := ts.length } := by
  have hempty : ts.isEmpty = false := by
    simpa [List.isEmpty_iff] using hne
  have hpassed : ∀ r ∈ (ts.zip obs).map (fun c =>
      run_docker_judge c.1.expected_output prob.time_limit_ms c.2), r.passed = true := by
    intro r hr
    rcases List.mem_map.mp hr with ⟨c, hc, rfl⟩
    rcases hall c hc with ⟨out, err, hobs, heq⟩
    rw [hobs, run_docker_judge_finished_zero]
    simp [strip_eq_of_rstrip_eq heq]
  have hlen2 : ((ts.zip obs).map (fun c =>
      run_docker_judge c.1.expected_output prob.time_limit_ms c.2)).length = ts.length := by
    simp [List.length_zip, hlen]
  have hloop := judge_loop_all_passed _ .ACCEPTED 0 hpassed
  rw [hlen2] at hloop
  simp [judge_submission, hempty, update_submission_status, hloop]

/-- C6 witness: two test cases, outputs "5\n" against "5" and "6" against
"6", both trim-trailing equal: the judge persists `(ACCEPTED, 2)`. -/
theorem judge_accepts_when_all_match_witness :
    judge_submission
      ⟨some ⟨1, "c".data, .PENDING, 0, 2⟩, some ⟨1000⟩,
       [⟨[], "5".data⟩, ⟨[], "6".data⟩]⟩
      [.finished 0 ("5\n".data) [], .finished 0 ("6".data) []] false
    = { db := some ⟨1, "c".data, .ACCEPTED, 2, 2⟩
        returned := true
        executed := 2 } := by
  have h := judge_accepts_when_all_match
    ⟨1, "c".data, .PENDING, 0, 2⟩ ⟨1000⟩
    [⟨[], "5".data⟩, ⟨[], "6".data⟩]
    [.finished 0 ("5\n".data) [], .finished 0 ("6".data) []]
    (by decide) (by decide)
    (by
      intro c hc
      fin_cases hc
      · exact ⟨"5\n".data, [], rfl, by decide⟩
      · exact ⟨"6".data, [], rfl, by decide⟩)
  simpa using h

/-- C8 counterexample: a submission already persisted in the terminal
status `ACCEPTED`; the system's own status-update operation, invoked again,
changes its status to `WRONG_ANSWER` — the persistence layer permits
transitions out of terminal states. -/
theorem terminal_status_overwritten :
    update_submission_status
        (some ⟨1, "x".data, .ACCEPTED, 2, 2⟩) .WRONG_ANSWER 0
      = some ⟨1, "x".data, .WRONG_ANSWER, 0, 2⟩
    ∧ (Status.ACCEPTED ≠ Status.PENDING)
    ∧ (some ⟨1, "x".data, .WRONG_ANSWER, 0, 2⟩ : Option Submission)
        ≠ some ⟨1, "x".data, .ACCEPTED, 2, 2⟩ := by
  decide

/-- C8 (amended): every status the judge pipeline itself persists is one of
the four terminal (non-`PENDING`) statuses, so the transitions the pipeline
performs go `PENDING → {ACCEPTED, WRONG_ANSWER, RUNTIME_ERROR,
TIME_LIMIT_EXCEEDED}`; but terminality is not enforced anywhere:
`update_submission_status` overwrites the stored status unconditionally
with whatever status is requested, so a further invocation (e.g. a
double-enqueued submission id) changes a terminal status again. -/
theorem submission_status_transitions
    (env : JudgeEnv) (obs : List ProcOutcome) (raised : Bool)
    (s s' : Submission)
    (hs : env.submission_row = some s)
    (hdb : (judge_submission env obs raised).db = some s') :
    (s' = s ∨ s'.status ≠ .PENDING)
    ∧ ∀ st p, update_submission_status (some s) st p
        = some { s with status := st, test_cases_passed := p } := by
  refine ⟨?_, fun st p => rfl⟩
  cases raised with
  | true =>
    right
    rw [judge_submission] at hdb
    simp only [if_true, hs, update_submission_status] at hdb
    rw [← Option.some_inj.mp hdb]
    simp
  | false =>
    rw [judge_submission] at hdb
    simp only [Bool.false_eq_true, if_false, hs] at hdb
    cases hp : env.problem_row with
    | none =>
      rw [hp] at hdb
      left
      exact (Option.some_inj.mp hdb).symm
    | some prob =>
      rw [hp] at hdb
      by_cases he : env.test_cases.isEmpty
      · simp only [he, if_true] at hdb
        left
        exact (Option.some_inj.mp hdb).symm
      · right
        simp only [he, if_false, update_submission_status] at hdb
        rw [← Option.some_inj.mp hdb]
        simpa using judge_loop_status_ne_pending _ .ACCEPTED 0 (by simp)

/-- C8 witness: on a concrete pending submission the judge persists the
terminal status `ACCEPTED`, and the unconditional overwrite equation of the
update operation holds at a concrete row. -/
theorem submission_status_transitions_witness :
    ((⟨1, "c".data, .ACCEPTED, 1, 1⟩ : Submission) = ⟨1, "c".data, .PENDING, 0, 1⟩
      ∨ (⟨1, "c".data, .ACCEPTED, 1, 1⟩ : Submission).status ≠ .PENDING)
    ∧ ∀ st p, update_submission_status (some ⟨1, "c".data, .PENDING, 0, 1⟩) st p
        = some ⟨1, "c".data, st, p, 1⟩ := by
  have h := submission_status_transitions
    ⟨some ⟨1, "c".data, .PENDING, 0, 1⟩, some ⟨1000⟩, [⟨[], "1".data⟩]⟩
    [.finished 0 ("1".data) []] false
    ⟨1, "c".data, .PENDING, 0, 1⟩ ⟨1, "c".data, .ACCEPTED, 1, 1⟩
    rfl (by decide)
  exact h

lemma batch_core_details_length (strategy : ComparisonStrategy) (i : Nat)
    (cs : List (Str × Str × Bool × Bool)) :
    (batch_core strategy i cs).1.length = cs.length := by
  induction cs generalizing i with
  | nil => simp [batch_core]
  | cons c cs ih => simp [batch_core, ih]

lemma batch_core_passed (strategy : ComparisonStrategy) (i : Nat)
    (cs : List (Str × Str × Bool × Bool)) :
    (batch_core strategy i cs).2.1
      = cs.countP (fun c => batch_case_verdict strategy c == VerdictType.ACCEPTED) := by
  induction cs generalizing i with
  | nil => rfl
  | cons c cs ih =>
    simp only [batch_core, List.countP_cons, ih]
    by_cases h : (evaluate_submission c.1 c.2.1 strategy c.2.2.1 c.2.2.2 none).1
        = VerdictType.ACCEPTED
    · simp [batch_case_verdict, h]
    · simp [batch_case_verdict, h]

lemma batch_core_first_failure (strategy : ComparisonStrategy) (i : Nat)
    (cs : List (Str × Str × Bool × Bool)) :
    (batch_core strategy i cs).2.2
      = ((cs.map (batch_case_verdict strategy)).find?
          (fun v => !(v == VerdictType.ACCEPTED))) := by
  induction cs generalizing i with
  | nil => rfl
  | cons c cs ih =>
    simp only [batch_core, List.map_cons, List.find?_cons]
    by_cases h : (evaluate_submission c.1 c.2.1 strategy c.2.2.1 c.2.2.2 none).1
        = VerdictType.ACCEPTED
    · rw [if_pos h, ih]
      have hb : (!(batch_case_verdict strategy c == VerdictType.ACCEPTED)) = false := by
        simp [batch_case_verdict, h]
      rw [hb]
    · rw [if_neg h]
      have hb : (!(batch_case_verdict strategy c == VerdictType.ACCEPTED)) = true := by
        simp [batch_case_verdict, h]
      rw [hb]
      simp [batch_case_verdict]

lemma zip4_length {α β γ δ : Type} (a : List α) (b : List β) (c : List γ)
    (d : List δ) (hb : b.length = a.length) (hc : c.length = a.length)
    (hd : d.length = a.length) : (zip4 a b c d).length = a.length := by
  induction a generalizing b c d with
  | nil =>
    cases b with
    | nil => rfl
    | cons _ _ => simp at hb
  | cons x xs ih =>
    cases b with
    | nil => simp at hb
    | cons y ys =>
      cases c with
      | nil => simp at hc
      | cons z zs =>
        cases d with
        | nil => simp at hd
        | cons w ws =>
          simp only [zip4, List.length_cons] at *
          rw [ih ys zs ws (by omega) (by omega) (by omega)]

/-- C9 counterexample: with 1 of 3 cases accepted, the exact value of
"passed divided by total times 100" is 100/3 percent, i.e. 10000/3
hundredths; the aggregator's percentage field holds 3333 hundredths
(33.33, the two-decimal rounding), and 3333 * 3 ≠ 10000, so the reported
percentage is not equal to passed/total × 100. -/
theorem batch_percentage_is_rounded :
    (batch_evaluate_submission [("a".data), ("b".data), ("c".data)]
        [("a".data), ("x".data), ("y".data)] .TRIM_TRAILING none none).map
        (fun r => (r.passed, r.total, r.percentage_hundredths))
      = some (1, 3, 3333)
    ∧ 3333 * 3 ≠ 1 * 100 * 100 := by
  decide

/-- C9 (amended): for equal-length, non-empty input lists the batch
aggregator evaluates every case (one detail entry per case, no
short-circuit), reports `passed` as the number of `ACCEPTED` cases, `total`
as the number of cases, the overall verdict as the verdict of the first
non-`ACCEPTED` case (or `ACCEPTED` when every case is accepted), and a
percentage equal to passed/total × 100 rounded to two decimal places
(stored here in exact hundredths), rather than the exact ratio. -/
theorem batch_aggregator_evaluates_all (A E : List Str)
    (strategy : ComparisonStrategy) (T R : List Bool)
    (hE : E.length = A.length) (hT : T.length = A.length)
    (hR : R.length = A.length) (hne : A ≠ []) :
    ∃ res, batch_evaluate_submission A E strategy (some T) (some R) = some res
      ∧ res.total = A.length
      ∧ res.details.length = A.length
      ∧ res.passed = (zip4 A E T R).countP
          (fun c => batch_case_verdict strategy c == VerdictType.ACCEPTED)
      ∧ res.verdict = (((zip4 A E T R).map (batch_case_verdict strategy)).find?
          (fun v => !(v == VerdictType.ACCEPTED))).getD VerdictType.ACCEPTED
      ∧ res.percentage_hundredths = pct_hundredths res.passed A.length := by
  have hn : A.length ≠ 0 := by
    simpa [List.length_eq_zero] using hne
  have hTne : T.isEmpty = false := by
    cases T with
    | nil => exact absurd (by simpa using hT.symm) hn
    | cons _ _ => rfl
  have hRne : R.isEmpty = false := by
    cases R with
    | nil => exact absurd (by simpa using hR.symm) hn
    | cons _ _ => rfl
  have hmain : batch_evaluate_submission A E strategy (some T) (some R)
      = some { passed := (batch_core strategy 0 (zip4 A E T R)).2.1
               total := A.length
               verdict := match (batch_core strategy 0 (zip4 A E T R)).2.2 with
                 | some v => v
                 | none => if (batch_core strategy 0 (zip4 A E T R)).2.1 = A.length
                     then VerdictType.ACCEPTED else VerdictType.WRONG_ANSWER
               percentage_hundredths :=
                 pct_hundredths (batch_core strategy 0 (zip4 A E T R)).2.1 A.length
               details := (batch_core strategy 0 (zip4 A E T R)).1 } := by
    simp only [batch_evaluate_submission, pyOrFalses, hTne, hRne, Bool.false_eq_true,
      if_false]
    rw [if_neg hn]
  refine ⟨_, hmain, rfl, ?_, ?_, ?_, rfl⟩
  · rw [batch_core_details_length]
    exact zip4_length A E T R hE hT hR
  · exact batch_core_passed strategy 0 _
  · rw [batch_core_first_failure, batch_core_passed]
    cases hff : ((zip4 A E T R).map (batch_case_verdict strategy)).find?
        (fun v => !(v == VerdictType.ACCEPTED)) with
    | some v => simp
    | none =>
      simp only [Option.getD_none]
      have hall : ∀ c ∈ zip4 A E T R,
          (batch_case_verdict strategy c == VerdictType.ACCEPTED) = true := by
        intro c hc
        have hmem : batch_case_verdict strategy c
            ∈ (zip4 A E T R).map (batch_case_verdict strategy) :=
          List.mem_map_of_mem _ hc
        have := List.find?_eq_none.mp hff _ hmem
        simpa using this
      have hcnt : (zip4 A E T R).countP
          (fun c => batch_case_verdict strategy c == VerdictType.ACCEPTED)
          = (zip4 A E T R).length :=
        List.countP_eq_length.mpr hall
      rw [hcnt, zip4_length A E T R hE hT hR, if_pos rfl]

/-- C9 witness: a single accepted case, where the aggregator returns a
result satisfying every clause of the amended claim. -/
theorem batch_aggregator_evaluates_all_witness :
    ∃ res, batch_evaluate_submission [("1".data)] [("1".data)] .TRIM_TRAILING
        (some [false]) (some [false]) = some res
      ∧ res.total = [("1".data)].length
      ∧ res.details.length = [("1".data)].length
      ∧ res.passed = (zip4 [("1".data)] [("1".data)] [false] [false]).countP
          (fun c => batch_case_verdict .TRIM_TRAILING c == VerdictType.ACCEPTED)
      ∧ res.verdict = (((zip4 [("1".data)] [("1".data)] [false] [false]).map
          (batch_case_verdict .TRIM_TRAILING)).find?
          (fun v => !(v == VerdictType.ACCEPTED))).getD VerdictType.ACCEPTED
      ∧ res.percentage_hundredths = pct_hundredths res.passed [("1".data)].length :=
  batch_aggregator_evaluates_all [("1".data)] [("1".data)] .TRIM_TRAILING
    [false] [false] rfl rfl rfl (by decide)

/-- C10: the batch aggregator reaches its division-by-zero error
(`ZeroDivisionError` while computing the percentage field, modelled as
`none`) exactly when the `actual_outputs` list is empty; on any non-empty
input it returns a result. -/
theorem batch_empty_input_is_error (A E : List Str)
    (strategy : ComparisonStrategy) (T R : Option (List Bool)) :
    batch_evaluate_submission A E strategy T R = none ↔ A = [] := by
  cases A with
  | nil => simp [batch_evaluate_submission]
  | cons x xs => simp [batch_evaluate_submission]
